import Mathlib

/-!
Shallow embedding of the monitoring core of tlbb-notice-wails.

The Go source being modelled is the monitor implementation
(`Monitor`, its three `checker` variants, `buildXizhiPushURL`,
`sendWechatPush`, `randomIntervalSec`, `Attach`, `Start`) together with
the persisted-settings record.  Network fetches, push deliveries and the
pseudo-random generator are external inputs; they are modelled as oracle
arguments (`Except`-valued fetch results, an `Option String` push
outcome, an `intn` function).  Side effects (persisting the snapshot,
opening a link in the browser, sending a push, log lines, spawning the
polling loop) are modelled as an explicit effect list in the order the
Go code performs them.

Strings: Go's `strings` helpers are re-implemented over `List Char` so
that every definition evaluates inside the kernel.  `trimSpace` models
`strings.TrimSpace` for ASCII whitespace (the Unicode space classes
beyond ASCII are not modelled; the repository only ever trims ASCII
program text and scraped titles).
-/

/-- Character class used by the model of `strings.TrimSpace`
(ASCII whitespace as recognised by `unicode.IsSpace`). -/
def isGoSpace (c : Char) : Bool :=
  c == ' ' || c == '\t' || c == '\n' || c == '\x0b' || c == '\x0c' || c == '\r'

/-- Model of Go `strings.TrimSpace`, restricted to ASCII whitespace. -/
def trimSpace (s : String) : String :=
  (((s.toList.dropWhile isGoSpace).reverse.dropWhile isGoSpace).reverse).asString

/-- Does the character list `p` occur inside the second list?  Helper for
the model of `strings.Contains`. -/
def containsSub (p : List Char) : List Char → Bool
  | [] => p.isPrefixOf []
  | c :: t => p.isPrefixOf (c :: t) || containsSub p t

/-- Model of Go `strings.Contains`. -/
def goContains (s sub : String) : Bool := containsSub sub.toList s.toList

/-- Cut a character list at the first occurrence of `p`, returning the
part before and the part after.  Helper for the models of
`strings.Cut` and `strings.Split`. -/
def cutChars (p : List Char) : List Char → Option (List Char × List Char)
  | [] => if p.isPrefixOf ([] : List Char) then some ([], []) else none
  | c :: t =>
    if p.isPrefixOf (c :: t) then some ([], (c :: t).drop p.length)
    else (cutChars p t).map (fun pr => (c :: pr.1, pr.2))

/-- Model of Go `strings.Cut`: the part before the first occurrence of
`sep`, the part after it, and whether `sep` occurred. -/
def goCut (s sep : String) : String × String × Bool :=
  match cutChars sep.toList s.toList with
  | some (a, b) => (a.asString, b.asString, true)
  | none => (s, "", false)

/-- Fuel-driven worker for the model of `strings.Split`; the fuel is
always at least the length of the list, which bounds the number of
possible cuts, so the fuel never runs out for a non-empty separator. -/
def splitFuel (sep : List Char) : Nat → List Char → List (List Char)
  | 0, l => [l]
  | fuel + 1, l =>
    match cutChars sep l with
    | none => [l]
    | some (a, b) => a :: splitFuel sep fuel b

/-- Model of Go `strings.Split`. -/
def goSplit (s sep : String) : List String :=
  match sep.toList with
  | [] => s.toList.map (fun c => String.singleton c)
  | _ :: _ => (splitFuel sep.toList (s.toList.length + 1) s.toList).map List.asString

/-- Model of Go `strings.TrimSuffix`: drop one trailing copy of
`suffix` when present. -/
def trimSuffix (s suffix : String) : String :=
  if suffix.toList.isSuffixOf s.toList then
    (s.toList.take (s.toList.length - suffix.toList.length)).asString
  else s

/-- A normalised latest item produced by a checker: stable identity
`Key` (the resolved link, falling back to the trimmed title), the
trimmed title and the absolute link (possibly empty). -/
structure latestItem where
  Key : String
  Title : String
  Link : String
deriving DecidableEq, Repr

/-- Observable side effects of the monitor, in the order the Go code
performs them: writing the persisted snapshot (`persistSnapshot` /
`saveSettings`), opening a link in the browser
(`runtime.BrowserOpenURL`), issuing a WeChat push (`sendWechatPush`),
spawning the polling goroutine, and emitting log lines
(`emitLog` at INFO / WARN / ERROR level). -/
inductive Effect where
  | persist
  | openLink (url : String)
  | push (channelKey head title link : String)
  | startLoop
  | logInfo (msg : String)
  | logWarn (msg : String)
  | logError (msg : String)
deriving DecidableEq, Repr

/-- Is this effect a WeChat push? -/
def Effect.isPush : Effect → Bool
  | .push _ _ _ _ => true
  | _ => false

/-- Is this effect a link open? -/
def Effect.isOpen : Effect → Bool
  | .openLink _ => true
  | _ => false

/-- Does the effect list contain a push? -/
def hasPush (effs : List Effect) : Bool := effs.any Effect.isPush

/-- Does the effect list contain a link open? -/
def hasOpen (effs : List Effect) : Bool := effs.any Effect.isOpen

/-- The mutable state of `Monitor` (monitor.go): running flag, push
channel key, per-source last-seen key/title(/link), the bounded
activity seen-key list and the last check timestamp (modelled as a
plain counter). -/
structure Monitor where
  running : Bool
  channelKey : String
  lastKey : String
  lastTitle : String
  lastActKey : String
  lastActTitle : String
  lastActLink : String
  lastForumKey : String
  lastForumTitle : String
  lastForumLink : String
  actSeenKeys : List String
  lastChecked : Nat
deriving DecidableEq, Repr

/-- Model of `NewMonitor`: every state field starts at its zero
value. -/
def NewMonitor : Monitor :=
  { running := false, channelKey := "", lastKey := "", lastTitle := ""
  , lastActKey := "", lastActTitle := "", lastActLink := ""
  , lastForumKey := "", lastForumTitle := "", lastForumLink := ""
  , actSeenKeys := [], lastChecked := 0 }

/-- The persisted-settings record (`persistedSettings` in the settings
file code), as loaded and saved by the external persistence gateway. -/
structure persistedSettings where
  ChannelKey : String := ""
  LastAnnounceKey : String := ""
  LastAnnounceTitle : String := ""
  LastActivityKey : String := ""
  LastActivityTitle : String := ""
  LastActivityLink : String := ""
  ActivitySeenKeys : List String := []
  LastForumKey : String := ""
  LastForumTitle : String := ""
  LastForumLink : String := ""
  UpdatedAt : String := ""
deriving DecidableEq, Repr

/-- Model of `Monitor.Attach`: hydrate the in-memory state from the
persisted settings.  The disk read performed by `loadSettings` is the
oracle argument: `none` models a load error (the Go code then leaves
every field untouched), `some s` a successful load.  Mirrors the
trimming, the key-from-title backfill for legacy data, and the
seen-set singleton backfill of monitor.go lines 337-369. -/
def Attach (loaded : Option persistedSettings) (st : Monitor) : Monitor :=
  match loaded with
  | none => st
  | some s =>
    let lastTitle := trimSpace s.LastAnnounceTitle
    let lastActTitle := trimSpace s.LastActivityTitle
    let lastForumTitle := trimSpace s.LastForumTitle
    let lastKey0 := trimSpace s.LastAnnounceKey
    let lastActKey0 := trimSpace s.LastActivityKey
    let lastForumKey0 := trimSpace s.LastForumKey
    let lastKey := if lastKey0 = "" then lastTitle else lastKey0
    let lastActKey := if lastActKey0 = "" then lastActTitle else lastActKey0
    let lastForumKey := if lastForumKey0 = "" then lastForumTitle else lastForumKey0
    let seen0 := s.ActivitySeenKeys
    let actSeenKeys := if seen0.length = 0 ∧ lastActKey ≠ "" then [lastActKey] else seen0
    { st with
      channelKey := trimSpace s.ChannelKey
      lastKey := lastKey
      lastTitle := lastTitle
      lastActKey := lastActKey
      lastActTitle := lastActTitle
      lastActLink := trimSpace s.LastActivityLink
      lastForumKey := lastForumKey
      lastForumTitle := lastForumTitle
      lastForumLink := trimSpace s.LastForumLink
      actSeenKeys := actSeenKeys }

/-- Model of `Monitor.Start` (monitor.go lines 399-460).  Returns the
new state, the effect list and the error returned to the caller.  When
the monitor is already running the Go code unlocks and returns the
error without touching any field and without spawning a goroutine;
otherwise it flips the running flag, stores the trimmed channel key,
persists the snapshot, logs, and spawns the polling loop
(`Effect.startLoop`). -/
def Start (st : Monitor) (channelKey : String) : Monitor × List Effect × Option String :=
  let ck := trimSpace channelKey
  if st.running then (st, [], some "监控已在运行")
  else
    ({ st with running := true, channelKey := ck },
     [Effect.persist, Effect.logInfo "监控已启动"]
     ++ (if ck = "" then [Effect.logWarn "未填写推送链接/Key：将跳过微信推送，仅打开链接"] else [])
     ++ [Effect.startLoop],
     none)

/-- The configured minimum polling interval in seconds
(`minIntervalSec`). -/
def minIntervalSec : Nat := 300

/-- The configured maximum polling interval in seconds
(`maxIntervalSec`). -/
def maxIntervalSec : Nat := 600

/-- Model of the body of `Monitor.randomIntervalSec` with the interval
bounds as explicit parameters; `intn` is the oracle for `rand.Intn`
(Go guarantees `intn n < n`, which the theorems take as a
hypothesis). -/
def randomIntervalSecWith (minI maxI : Nat) (intn : Nat → Nat) : Nat :=
  if maxI ≤ minI then minI else intn (maxI - minI + 1) + minI

/-- Model of `Monitor.randomIntervalSec` at the configured constants. -/
def randomIntervalSec (intn : Nat → Nat) : Nat :=
  randomIntervalSecWith minIntervalSec maxIntervalSec intn

/-- Effects of the link-opening block each source runs on a new item:
open the link and log when the trimmed link is non-empty, otherwise
log a warning. -/
def openLinkEffects (link okPrefix warnMsg : String) : List Effect :=
  if trimSpace link ≠ "" then [Effect.openLink link, Effect.logInfo (okPrefix ++ link)]
  else [Effect.logWarn warnMsg]

/-- Effects of the push block each source runs on a new item: skip with
an INFO log when the trimmed channel key is empty, otherwise push and
log the outcome (`pushErr` is the oracle for the `sendWechatPush`
delivery result). -/
def pushEffects (ck head title link : String) (pushErr : Option String) : List Effect :=
  if trimSpace ck = "" then [Effect.logInfo "未配置推送链接/Key，已跳过微信推送"]
  else
    [Effect.push ck head title link]
    ++ (match pushErr with
        | some e => [Effect.logError ("微信推送失败: " ++ e)]
        | none => [Effect.logInfo "微信推送发送成功"])

/-- The announcement branch of `Monitor.checkOnce` (case "公告",
monitor.go lines 536-575), for a successfully fetched item with
non-empty key: baseline adoption when no previous key exists, no-op on
key equality, and update/persist/open/push on a new key. -/
def announceStep (ck : String) (st : Monitor) (item : latestItem) (pushErr : Option String) :
    Monitor × List Effect :=
  if trimSpace st.lastKey = "" then
    ({ st with lastKey := item.Key, lastTitle := item.Title },
     [Effect.persist, Effect.logInfo ("已获取当前最新公告(基线): " ++ item.Title)])
  else if item.Key = st.lastKey then
    (st, [Effect.logInfo ("公告未发生变化: " ++ item.Title)])
  else
    ({ st with lastKey := item.Key, lastTitle := item.Title },
     [Effect.logInfo ("检测到新公告: " ++ item.Title), Effect.persist]
     ++ openLinkEffects item.Link "已打开公告链接: " "未解析到公告链接"
     ++ pushEffects ck "天龙发公告了" item.Title item.Link pushErr)

/-- The forum branch of `Monitor.checkOnce` (case "论坛", monitor.go
lines 684-726), structured exactly like the announcement branch but
also storing the link. -/
def forumStep (ck : String) (st : Monitor) (item : latestItem) (pushErr : Option String) :
    Monitor × List Effect :=
  if trimSpace st.lastForumKey = "" then
    ({ st with lastForumKey := item.Key, lastForumTitle := item.Title, lastForumLink := item.Link },
     [Effect.persist, Effect.logInfo ("已获取当前最新论坛帖子(基线): " ++ item.Title)])
  else if item.Key = st.lastForumKey then
    (st, [Effect.logInfo ("论坛首帖未发生变化: " ++ item.Title)])
  else
    ({ st with lastForumKey := item.Key, lastForumTitle := item.Title, lastForumLink := item.Link },
     [Effect.logInfo ("检测到论坛新帖: " ++ item.Title), Effect.persist]
     ++ openLinkEffects item.Link "已打开论坛帖子链接: " "未解析到论坛帖子链接"
     ++ pushEffects ck "天龙论坛有新帖了" item.Title item.Link pushErr)

/-- The seen-key set the activity branch builds from the stored list:
each stored key trimmed, empty entries skipped (monitor.go lines
625-632; the Go map is modelled as the de-facto membership list). -/
def seenSetOf (seen : List String) : List String :=
  (seen.map trimSpace).filter (fun k => k != "")

/-- The new items of one activity fetch: the fetched items whose key is
absent from the seen-key set, in fetch order (monitor.go lines
634-639). -/
def activityNewItems (seen : List String) (all : List latestItem) : List latestItem :=
  all.filter (fun it => !((seenSetOf seen).contains it.Key))

/-- The multi-item activity branch of `Monitor.checkOnce` (case "活动"
after a successful `FetchAll`, monitor.go lines 601-682): warn on an
empty list; adopt the whole list as baseline when no previous key
exists; otherwise diff against the seen set, promote the last new
item, append all new keys and cap the list at the 200 most recent
entries.  The unreachable single-item fallback for a checker without
`FetchAll` (lines 579-594) is not modelled: the type assertion always
succeeds for `activityChecker`. -/
def activityStep (ck : String) (st : Monitor) (all : List latestItem) (pushErr : Option String) :
    Monitor × List Effect :=
  match all with
  | [] => (st, [Effect.logWarn "未找到最新活动标题"])
  | a0 :: rest =>
    if trimSpace st.lastActKey = "" then
      ({ st with lastActKey := a0.Key, lastActTitle := a0.Title, lastActLink := a0.Link,
                 actSeenKeys := (a0 :: rest).map latestItem.Key },
       [Effect.persist, Effect.logInfo ("已获取当前最新活动(基线): " ++ a0.Title)])
    else
      match (activityNewItems st.actSeenKeys (a0 :: rest)).getLast? with
      | none => (st, [Effect.logInfo ("活动未发现新增: " ++ a0.Title)])
      | some picked =>
        let s := st.actSeenKeys ++ (activityNewItems st.actSeenKeys (a0 :: rest)).map latestItem.Key
        let seen := if s.length > 200 then s.drop (s.length - 200) else s
        ({ st with lastActKey := picked.Key, lastActTitle := picked.Title,
                   lastActLink := picked.Link, actSeenKeys := seen },
         [Effect.logInfo ("检测到新活动: " ++ picked.Title), Effect.persist]
         ++ openLinkEffects picked.Link "已打开活动链接: " "未解析到活动链接"
         ++ pushEffects ck "天龙有新活动了" picked.Title picked.Link pushErr)

/-- The per-cycle oracle inputs of `Monitor.checkOnce`: the result of
each source's `FetchLatest`, the result of the activity `FetchAll`,
and the delivery outcome of a push for each source (used only when
that source actually pushes). -/
structure CycleInput where
  annRes : Except String latestItem
  actLatestRes : Except String latestItem
  actAllRes : Except String (List latestItem)
  forumRes : Except String latestItem
  annPushErr : Option String
  actPushErr : Option String
  forumPushErr : Option String

/-- The announcement pass of one `checkOnce` cycle: handle the fetch
error (ERROR log, state untouched) or the not-found item (empty key:
WARN log, state untouched) and otherwise run the announcement branch.
The returned flag records whether `FetchLatest` succeeded (the Go
`allFailed` is cleared even for a not-found item). -/
def annPhase (ck : String) (st : Monitor) (res : Except String latestItem)
    (pushErr : Option String) : Monitor × List Effect × Bool :=
  match res with
  | .error e => (st, [Effect.logError ("公告检查失败: " ++ e)], false)
  | .ok item =>
    if trimSpace item.Key = "" then (st, [Effect.logWarn "未找到最新公告标题"], true)
    else
      let r := announceStep ck st item pushErr
      (r.1, r.2, true)

/-- The activity pass of one `checkOnce` cycle: the generic
`FetchLatest` guard (error / empty key) followed by `FetchAll` (its
error logged the same way) and the multi-item activity branch. -/
def actPhase (ck : String) (st : Monitor) (latestRes : Except String latestItem)
    (allRes : Except String (List latestItem)) (pushErr : Option String) :
    Monitor × List Effect × Bool :=
  match latestRes with
  | .error e => (st, [Effect.logError ("活动检查失败: " ++ e)], false)
  | .ok item =>
    if trimSpace item.Key = "" then (st, [Effect.logWarn "未找到最新活动标题"], true)
    else
      match allRes with
      | .error e => (st, [Effect.logError ("活动检查失败: " ++ e)], true)
      | .ok all =>
        let r := activityStep ck st all pushErr
        (r.1, r.2, true)

/-- The forum pass of one `checkOnce` cycle, analogous to the
announcement pass. -/
def forumPhase (ck : String) (st : Monitor) (res : Except String latestItem)
    (pushErr : Option String) : Monitor × List Effect × Bool :=
  match res with
  | .error e => (st, [Effect.logError ("论坛检查失败: " ++ e)], false)
  | .ok item =>
    if trimSpace item.Key = "" then (st, [Effect.logWarn "未找到最新论坛标题"], true)
    else
      let r := forumStep ck st item pushErr
      (r.1, r.2, true)

/-- Model of `Monitor.checkOnce` (monitor.go lines 508-734): stamp the
check time, snapshot the channel key, run the three source passes in
order, and return the combined state, effects and the all-failed
error. -/
def checkOnce (st : Monitor) (inp : CycleInput) (now : Nat) :
    Monitor × List Effect × Option String :=
  let ck := st.channelKey
  let st0 : Monitor := { st with lastChecked := now }
  let a := annPhase ck st0 inp.annRes inp.annPushErr
  let b := actPhase ck a.1 inp.actLatestRes inp.actAllRes inp.actPushErr
  let c := forumPhase ck b.1 inp.forumRes inp.forumPushErr
  (c.1, a.2.1 ++ b.2.1 ++ c.2.1,
   if a.2.2 || b.2.2 || c.2.2 then none else some "公告、活动与论坛检查均失败")

/-- The fixed default push host (`xizhiDefaultHost`). -/
def xizhiDefaultHost : String := "xizhi.qqoq.net"

/-- Model of `buildRichPushContent`: the push body composed of the
(defaulted) title, the fixed source label and the link or "无". -/
def buildRichPushContent (title link : String) : String :=
  let title := trimSpace title
  let link := trimSpace link
  let title := if title = "" then "有新消息" else title
  if link = "" then title ++ "\n来源：天龙怀旧公告检测\n链接：无"
  else title ++ "\n来源：天龙怀旧公告检测\n链接：" ++ link

/-- Uppercase hexadecimal digit, as used by Go's percent-escaping. -/
def hexUpper (n : Nat) : Char := if n < 10 then Char.ofNat (48 + n) else Char.ofNat (55 + n)

/-- The UTF-8 byte values of a code point, as Go's escaping operates on
bytes. -/
def utf8ByteVals (n : Nat) : List Nat :=
  if n < 128 then [n]
  else if n < 2048 then [192 + n / 64, 128 + n % 64]
  else if n < 65536 then [224 + n / 4096, 128 + (n / 64) % 64, 128 + n % 64]
  else [240 + n / 262144, 128 + (n / 4096) % 64, 128 + (n / 64) % 64, 128 + n % 64]

/-- Bytes Go's query escaping leaves untouched (letters, digits and
`-`, `_`, `.`, `~`). -/
def isUnreservedQueryByte (n : Nat) : Bool :=
  (65 ≤ n && n ≤ 90) || (97 ≤ n && n ≤ 122) || (48 ≤ n && n ≤ 57) ||
  n == 45 || n == 95 || n == 46 || n == 126

/-- One escaped byte of a query component: kept verbatim, `+` for a
space, or a `%XX` triple. -/
def escapeQueryByte (n : Nat) : String :=
  if isUnreservedQueryByte n then String.singleton (Char.ofNat n)
  else if n == 32 then "+"
  else "%" ++ String.singleton (hexUpper (n / 16)) ++ String.singleton (hexUpper (n % 16))

/-- Model of Go `net/url.QueryEscape`. -/
def queryEscape (s : String) : String :=
  String.join (((s.toList.map (fun c => utf8ByteVals c.toNat)).flatten).map escapeQueryByte)

/-- Hexadecimal digit value of a character, if any. -/
def unhexChar (c : Char) : Option Nat :=
  if '0' ≤ c ∧ c ≤ '9' then some (c.toNat - 48)
  else if 'A' ≤ c ∧ c ≤ 'F' then some (c.toNat - 55)
  else if 'a' ≤ c ∧ c ≤ 'f' then some (c.toNat - 87)
  else none

/-- Character-level model of Go `net/url.QueryUnescape`: `%XX` decodes
to the byte value (adequate for the ASCII inputs this program builds;
multi-byte UTF-8 percent-sequences are not reassembled), `+` decodes
to a space, and a malformed escape is an error (`none`). -/
def unescapeChars : List Char → Option (List Char)
  | [] => some []
  | '%' :: a :: b :: rest =>
    match unhexChar a, unhexChar b with
    | some ha, some hb => (unescapeChars rest).map (fun t => Char.ofNat (16 * ha + hb) :: t)
    | _, _ => none
  | '%' :: _ => none
  | '+' :: rest => (unescapeChars rest).map (fun t => ' ' :: t)
  | c :: rest => (unescapeChars rest).map (fun t => c :: t)

/-- Model of Go `net/url.QueryUnescape` on strings. -/
def queryUnescape (s : String) : Option String :=
  (unescapeChars s.toList).map List.asString

/-- Model of Go `url.Values` built by `URL.Query` / `ParseQuery`:
segments split on `&`, a segment containing `;` or empty skipped, each
remaining segment cut at the first `=` and both sides unescaped (a
failing unescape skips the pair).  Values are kept as an ordered
key-value list; `valuesEncode` sorts by key like Go's map-based

encoder. -/
def parseQuery (s : String) : List (String × String) :=
  (goSplit s "&").foldl
    (fun acc seg =>
      if seg = "" then acc
      else if goContains seg ";" then acc
      else
        let c := goCut seg "="
        match queryUnescape c.1, queryUnescape c.2.1 with
        | some k, some v => acc ++ [(k, v)]
        | _, _ => acc)
    []

/-- Model of `url.Values.Set`: drop every pair with this key and record
the single new value. -/
def valuesSet (q : List (String × String)) (k v : String) : List (String × String) :=
  q.filter (fun p => p.1 != k) ++ [(k, v)]

/-- Model of `url.Values.Get`: the first value stored for the key. -/
def valuesGet (q : List (String × String)) (k : String) : Option String :=
  (q.find? (fun p => p.1 == k)).map (fun p => p.2)

/-- Byte-wise lexicographic comparison of strings (Go's `<=` on
strings; UTF-8 byte order coincides with code-point order). -/
def charListLe : List Char → List Char → Bool
  | [], _ => true
  | _ :: _, [] => false
  | a :: as, b :: bs =>
    if a.toNat < b.toNat then true
    else if b.toNat < a.toNat then false
    else charListLe as bs

/-- Stable insertion of a pair into a key-sorted pair list. -/
def insertByKey (p : String × String) : List (String × String) → List (String × String)
  | [] => [p]
  | q :: qs => if charListLe p.1.toList q.1.toList then p :: q :: qs else q :: insertByKey p qs

/-- Stable sort of a pair list by key, modelling the key sort in
`url.Values.Encode`. -/
def sortPairsByKey : List (String × String) → List (String × String)
  | [] => []
  | p :: ps => insertByKey p (sortPairsByKey ps)

/-- Model of `url.Values.Encode`: keys sorted, each pair escaped and
joined with `&`. -/
def valuesEncode (q : List (String × String)) : String :=
  String.intercalate "&" ((sortPairsByKey q).map (fun p => queryEscape p.1 ++ "=" ++ queryEscape p.2))

/-- The parsed-URL record used by `buildXizhiPushURL`, modelling the
fields of `net/url.URL` the program reads (`Scheme`, `Host`, `Path`,
`RawQuery`, plus the fragment for round-tripping). -/
structure GoURL where
  scheme : String
  host : String
  path : String
  rawQuery : String
  fragment : String
deriving DecidableEq, Repr

/-- Are these characters a valid URI scheme tail (letters, digits,
`+`, `-`, `.`)? -/
def validSchemeTail : List Char → Bool
  | [] => true
  | c :: t => (c.isAlphanum || c == '+' || c == '-' || c == '.') && validSchemeTail t

/-- Is this a valid URI scheme (a letter followed by a valid tail)? -/
def validScheme : List Char → Bool
  | [] => false
  | c :: t => c.isAlpha && validSchemeTail t

/-- Model of `net/url.Parse` restricted to the absolute-URL shapes
`buildXizhiPushURL` feeds it (the input is known to contain `://`):
the text before the first `://` must be a valid scheme (else a parse
error, as Go reports for such inputs), the authority runs to the first
`/`, `?` or `#`, and the query and fragment are cut at `?` and `#`.
Userinfo/port splitting, host validation, percent-escape checking and
path canonicalisation are not modelled. -/
def goURLParse (raw : String) : Except String GoURL :=
  match cutChars "://".toList raw.toList with
  | none => .error ("parse \"" ++ raw ++ "\": missing scheme separator")
  | some (schemeCs, afterCs) =>
    if validScheme schemeCs then
      let fcut := match cutChars ['#'] afterCs with
        | some pr => pr
        | none => (afterCs, [])
      let qcut := match cutChars ['?'] fcut.1 with
        | some pr => pr
        | none => (fcut.1, [])
      let hostCs := qcut.1.takeWhile (fun c => !(c == '/'))
      let pathCs := qcut.1.drop hostCs.length
      .ok { scheme := (schemeCs.map Char.toLower).asString
          , host := hostCs.asString
          , path := pathCs.asString
          , rawQuery := qcut.2.asString
          , fragment := fcut.2.asString }
    else .error ("parse \"" ++ raw ++ "\": invalid URI scheme")

/-- Model of `(*net/url.URL).String` for the URLs this program
produces: scheme, `://`, host, path, then the query and fragment when
non-empty (Go's re-escaping of the path is not modelled). -/
def GoURL.render (u : GoURL) : String :=
  u.scheme ++ "://" ++ u.host ++ u.path
  ++ (if u.rawQuery = "" then "" else "?" ++ u.rawQuery)
  ++ (if u.fragment = "" then "" else "#" ++ u.fragment)

/-- The key normalisation of `buildXizhiPushURL`'s bare-key branch
(monitor.go lines 816-822): trim, keep the last `/`-separated segment,
strip one `.send` suffix, trim again. -/
def xizhiNormalizeKey (pushInput : String) : String :=
  let key := trimSpace pushInput
  let key := if goContains key "/" then trimSpace ((goSplit key "/").getLastD "") else key
  let key := trimSuffix key ".send"
  trimSpace key

/-- Model of `buildXizhiPushURL` (monitor.go lines 786-837): an empty
input is rejected; an input containing `://` is parsed as a URL,
rejected when scheme or host is missing, and otherwise re-rendered
with `title`/`content` set in its query; any other input is normalised
to a bare key, rejected when empty, and combined with the default host
into `https://<host>/<key>.send?...`. -/
def buildXizhiPushURL (pushInput title content : String) : Except String String :=
  let pushInput := trimSpace pushInput
  if pushInput = "" then .error "推送链接/Key 不能为空"
  else
    let title := trimSpace title
    let title := if title = "" then "消息通知" else title
    let content := trimSpace content
    if goContains pushInput "://" then
      match goURLParse pushInput with
      | .error e => .error e
      | .ok u =>
        if u.scheme = "" ∨ u.host = "" then .error "无效推送链接"
        else
          let q := valuesSet (valuesSet (parseQuery u.rawQuery) "title" title) "content" content
          .ok (GoURL.render { u with rawQuery := valuesEncode q })
    else
      let key := xizhiNormalizeKey pushInput
      if key = "" then .error "无效推送 key"
      else
        let u : GoURL :=
          { scheme := "https", host := xizhiDefaultHost, path := "/" ++ key ++ ".send"
          , rawQuery := "", fragment := "" }
        let q := valuesSet (valuesSet (parseQuery u.rawQuery) "title" title) "content" content
        .ok (GoURL.render { u with rawQuery := valuesEncode q })

/-- Model of `Monitor.sendWechatPush` (monitor.go lines 736-770).  The
HTTP exchange is the oracle `resp`: a transport error, or the status
code, status line and body of the response.  A response outside 2xx
becomes a delivery error built from the status line and trimmed
body. -/
def sendWechatPush (channelKey head title link : String)
    (resp : Except String (Nat × String × String)) : Except String Unit :=
  let channelKey := trimSpace channelKey
  if channelKey = "" then .error "推送链接/Key 不能为空"
  else
    let head := trimSpace head
    let head := if head = "" then "消息通知" else head
    let body := buildRichPushContent title link
    match buildXizhiPushURL channelKey head body with
    | .error e => .error e
    | .ok _ =>
      match resp with
      | .error e => .error e
      | .ok (code, status, rbody) =>
        if code < 200 ∨ 300 ≤ code then
          .error ("HTTP " ++ status ++ ": " ++ trimSpace rbody)
        else .ok ()

/-- Model of `announcementChecker.FetchLatest` (monitor.go lines
57-107).  The HTTP exchange is the oracle `resp`: a transport/read
failure, or the status code, status line and body of the response.
The goquery document build and selector walk over the body is the
oracle `parse`: a document-parse failure, `none` when the title
selector matches nothing, or the raw title text and resolved absolute
link.  Note that this checker — unlike the activity and forum checkers
— never inspects the status code: the body is parsed whatever the
status, and a selector miss returns the empty item with a nil
error. -/
def announcementFetchLatest (resp : Except String (Nat × String × String))
    (parse : String → Except String (Option (String × String))) :
    Except String latestItem :=
  match resp with
  | .error e => .error e
  | .ok (_code, _status, body) =>
    match parse body with
    | .error e => .error e
    | .ok none => .ok ⟨"", "", ""⟩
    | .ok (some (titleRaw, link)) =>
      let title := trimSpace titleRaw
      let key := trimSpace link
      let key := if key = "" then trimSpace title else key
      .ok ⟨key, title, link⟩

/-- Model of `forumChecker.FetchLatest` (monitor.go lines 200-304),
with the same two oracles: here a response outside 2xx is returned as
an error built from the status line and trimmed body before any
parsing happens. -/
def forumFetchLatest (resp : Except String (Nat × String × String))
    (parse : String → Except String (Option (String × String))) :
    Except String latestItem :=
  match resp with
  | .error e => .error e
  | .ok (code, status, body) =>
    if code < 200 ∨ 300 ≤ code then .error ("HTTP " ++ status ++ ": " ++ trimSpace body)
    else
      match parse body with
      | .error e => .error e
      | .ok none => .ok ⟨"", "", ""⟩
      | .ok (some (titleRaw, link)) =>
        let title := trimSpace titleRaw
        let key := trimSpace link
        let key := if key = "" then trimSpace title else key
        .ok ⟨key, title, link⟩

/-- Model of `activityChecker.FetchLatest` (monitor.go lines 114-151):
non-2xx responses are an error; the JSON decode is the oracle `dec`
giving the `(title, href_url)` pairs (`href_status` is ignored, as in
the Go code); an empty array is the empty item with a nil error. -/
def activityFetchLatest (resp : Except String (Nat × String × String))
    (dec : String → Except String (List (String × String))) :
    Except String latestItem :=
  match resp with
  | .error e => .error e
  | .ok (code, status, body) =>
    if code < 200 ∨ 300 ≤ code then .error ("HTTP " ++ status ++ ": " ++ trimSpace body)
    else
      match dec body with
      | .error e => .error e
      | .ok [] => .ok ⟨"", "", ""⟩
      | .ok ((t, h) :: _) =>
        let title := trimSpace t
        let link := trimSpace h
        let key := trimSpace link
        let key := if key = "" then trimSpace title else key
        .ok ⟨key, title, link⟩

/-- Model of `activityChecker.FetchAll` (monitor.go lines 153-193):
the same status check and decode oracle, then every element mapped to
an item, skipping those whose derived key is empty, in source
order. -/
def activityFetchAll (resp : Except String (Nat × String × String))
    (dec : String → Except String (List (String × String))) :
    Except String (List latestItem) :=
  match resp with
  | .error e => .error e
  | .ok (code, status, body) =>
    if code < 200 ∨ 300 ≤ code then .error ("HTTP " ++ status ++ ": " ++ trimSpace body)
    else
      match dec body with
      | .error e => .error e
      | .ok items =>
        .ok (items.foldl
          (fun out (p : String × String) =>
            let title := trimSpace p.1
            let link := trimSpace p.2
            let key := trimSpace link
            let key := if key = "" then trimSpace title else key
            if key = "" then out else out ++ [⟨key, title, link⟩])
          [])

/-!  Helper lemmas shared by the claim theorems. -/

theorem hasPush_append (a b : List Effect) : hasPush (a ++ b) = (hasPush a || hasPush b) := by
  simp [hasPush, List.any_append]

theorem hasOpen_append (a b : List Effect) : hasOpen (a ++ b) = (hasOpen a || hasOpen b) := by
  simp [hasOpen, List.any_append]

theorem hasPush_openLinkEffects (link p w : String) :
    hasPush (openLinkEffects link p w) = false := by
  unfold openLinkEffects
  split <;> simp [hasPush, Effect.isPush]

theorem hasOpen_openLinkEffects (link p w : String) :
    hasOpen (openLinkEffects link p w) = true ↔ trimSpace link ≠ "" := by
  unfold openLinkEffects
  split <;> simp [hasOpen, Effect.isOpen] <;> simp_all

theorem hasOpen_pushEffects (ck h t l : String) (pe : Option String) :
    hasOpen (pushEffects ck h t l pe) = false := by
  unfold pushEffects
  split
  · simp [hasOpen, Effect.isOpen]
  · cases pe <;> simp [hasOpen, Effect.isOpen]

theorem hasPush_pushEffects (ck h t l : String) (pe : Option String) :
    hasPush (pushEffects ck h t l pe) = true ↔ trimSpace ck ≠ "" := by
  unfold pushEffects
  split
  · simp [hasPush, Effect.isPush]; simp_all
  · cases pe <;> simp [hasPush, Effect.isPush] <;> simp_all

/-- C1: for every source, when the stored (trimmed) last key is empty
and a fetch succeeds with a non-empty key, the branch adopts the
fetched item as baseline: it stores the key and title (and link for
forum, and the whole key list for activity), persists the snapshot,
and neither opens a link nor pushes. -/
theorem C1_baseline_adoption (ck : String) (st : Monitor) (item : latestItem)
    (pe : Option String) (a0 : latestItem) (rest : List latestItem) :
    (trimSpace st.lastKey = "" → trimSpace item.Key ≠ "" →
      (announceStep ck st item pe).1.lastKey = item.Key ∧
      (announceStep ck st item pe).1.lastTitle = item.Title ∧
      Effect.persist ∈ (announceStep ck st item pe).2 ∧
      hasOpen (announceStep ck st item pe).2 = false ∧
      hasPush (announceStep ck st item pe).2 = false) ∧
    (trimSpace st.lastForumKey = "" → trimSpace item.Key ≠ "" →
      (forumStep ck st item pe).1.lastForumKey = item.Key ∧
      (forumStep ck st item pe).1.lastForumTitle = item.Title ∧
      (forumStep ck st item pe).1.lastForumLink = item.Link ∧
      Effect.persist ∈ (forumStep ck st item pe).2 ∧
      hasOpen (forumStep ck st item pe).2 = false ∧
      hasPush (forumStep ck st item pe).2 = false) ∧
    (trimSpace st.lastActKey = "" →
      (activityStep ck st (a0 :: rest) pe).1.lastActKey = a0.Key ∧
      (activityStep ck st (a0 :: rest) pe).1.lastActTitle = a0.Title ∧
      (activityStep ck st (a0 :: rest) pe).1.lastActLink = a0.Link ∧
      (activityStep ck st (a0 :: rest) pe).1.actSeenKeys = (a0 :: rest).map latestItem.Key ∧
      Effect.persist ∈ (activityStep ck st (a0 :: rest) pe).2 ∧
      hasOpen (activityStep ck st (a0 :: rest) pe).2 = false ∧
      hasPush (activityStep ck st (a0 :: rest) pe).2 = false) := by
  refine ⟨fun h _ => ?_, fun h _ => ?_, fun h => ?_⟩
  · simp [announceStep, h, hasOpen, hasPush, Effect.isOpen, Effect.isPush]
  · simp [forumStep, h, hasOpen, hasPush, Effect.isOpen, Effect.isPush]
  · simp [activityStep, h, hasOpen, hasPush, Effect.isOpen, Effect.isPush]

/-- Witness for C1 at a concrete fresh monitor and item. -/
theorem C1_baseline_adoption_witness :
    (trimSpace NewMonitor.lastKey = "" ∧ trimSpace "https://x/a" ≠ "" ∧
     trimSpace NewMonitor.lastActKey = "") ∧
    ((announceStep "ck" NewMonitor ⟨"https://x/a", "公告A", "https://x/a"⟩ none).1.lastKey
       = "https://x/a" ∧
     hasPush (announceStep "ck" NewMonitor ⟨"https://x/a", "公告A", "https://x/a"⟩ none).2
       = false) ∧
    ((activityStep "ck" NewMonitor [⟨"k1", "t1", "l1"⟩] none).1.actSeenKeys = ["k1"] ∧
     hasOpen (activityStep "ck" NewMonitor [⟨"k1", "t1", "l1"⟩] none).2 = false) := by
  have h := C1_baseline_adoption "ck" NewMonitor ⟨"https://x/a", "公告A", "https://x/a"⟩ none
    ⟨"k1", "t1", "l1"⟩ []
  have h1 := h.1 (by decide) (by decide)
  have h3 := h.2.2 (by decide)
  exact ⟨⟨by decide, by decide, by decide⟩, ⟨h1.1, h1.2.2.2.2⟩, ⟨h3.2.2.2.1, h3.2.2.2.2.2.1⟩⟩

/-- C5: a Start on a running monitor returns the already-running error
with the state untouched and no effects (in particular no second
polling loop is spawned); a Start on an idle monitor succeeds,
transitions to running, stores the trimmed channel key (empty is
valid), persists, and spawns the loop. -/
theorem C5_start_idempotency_guard (st : Monitor) (ck : String) :
    (st.running = true → Start st ck = (st, [], some "监控已在运行")) ∧
    (st.running = false →
      (Start st ck).1 = { st with running := true, channelKey := trimSpace ck } ∧
      (Start st ck).2.2 = none ∧
      Effect.startLoop ∈ (Start st ck).2.1 ∧
      Effect.persist ∈ (Start st ck).2.1) := by
  constructor
  · intro h
    simp [Start, h]
  · intro h
    refine ⟨?_, ?_, ?_, ?_⟩ <;> simp [Start, h]

/-- Witness for C5: starting twice, the second Start errors with the
state intact, while the first Start succeeded. -/
theorem C5_start_idempotency_guard_witness :
    ((Start NewMonitor " key ").1.running = true ∧
     (Start NewMonitor " key ").1.channelKey = "key" ∧
     (Start NewMonitor " key ").2.2 = none) ∧
    ((Start NewMonitor " key ").1.running = true ∧
     Start (Start NewMonitor " key ").1 "other" =
       ((Start NewMonitor " key ").1, [], some "监控已在运行")) := by
  have h1 := (C5_start_idempotency_guard NewMonitor " key ").2 (by decide)
  have h2 := (C5_start_idempotency_guard (Start NewMonitor " key ").1 "other").1
    (by rw [h1.1])
  refine ⟨⟨by rw [h1.1], by rw [h1.1]; decide, h1.2.1⟩, ⟨by rw [h1.1], h2⟩⟩

/-- C9: with `rand.Intn` behaving as guaranteed (`intn n < n`), every
computed delay lies in the inclusive range [300, 600] seconds, and
whenever the configured maximum is at most the configured minimum the
minimum is returned. -/
theorem C9_interval_bounds (intn : Nat → Nat) (h : ∀ n, 0 < n → intn n < n) :
    (300 ≤ randomIntervalSec intn ∧ randomIntervalSec intn ≤ 600) ∧
    (∀ lo hi : Nat, hi ≤ lo → randomIntervalSecWith lo hi intn = lo) := by
  constructor
  · have h301 := h 301 (by norm_num)
    have hval : randomIntervalSec intn = intn 301 + 300 := by
      unfold randomIntervalSec randomIntervalSecWith minIntervalSec maxIntervalSec
      norm_num
    omega
  · intro lo hi hle
    unfold randomIntervalSecWith
    rw [if_pos hle]

/-- Witness for C9 with a deterministic generator. -/
theorem C9_interval_bounds_witness :
    (∀ n : Nat, 0 < n → (fun _ : Nat => 0) n < n) ∧
    (300 ≤ randomIntervalSec (fun _ => 0) ∧ randomIntervalSec (fun _ => 0) ≤ 600) ∧
    randomIntervalSecWith 500 400 (fun _ => 0) = 500 := by
  have hb : ∀ n : Nat, 0 < n → (fun _ : Nat => 0) n < n := fun n hn => hn
  have h := C9_interval_bounds (fun _ => 0) hb
  exact ⟨hb, h.1, h.2 500 400 (by norm_num)⟩

/-- C10: after a successful settings load, a source whose trimmed
persisted key is empty gets its title as in-memory key, and an empty
persisted activity seen-key list is re-seeded with the resulting
activity key when that key is non-empty; a failed load leaves the
state untouched. -/
theorem C10_attach_backfill (st : Monitor) (s : persistedSettings) :
    (trimSpace s.LastAnnounceKey = "" →
      (Attach (some s) st).lastKey = trimSpace s.LastAnnounceTitle) ∧
    (trimSpace s.LastActivityKey = "" →
      (Attach (some s) st).lastActKey = trimSpace s.LastActivityTitle) ∧
    (trimSpace s.LastForumKey = "" →
      (Attach (some s) st).lastForumKey = trimSpace s.LastForumTitle) ∧
    (s.ActivitySeenKeys = [] → (Attach (some s) st).lastActKey ≠ "" →
      (Attach (some s) st).actSeenKeys = [(Attach (some s) st).lastActKey]) ∧
    Attach none st = st := by
  refine ⟨fun h => ?_, fun h => ?_, fun h => ?_, fun h h2 => ?_, rfl⟩
  · simp [Attach, h]
  · simp [Attach, h]
  · simp [Attach, h]
  · simp only [Attach] at h2 ⊢
    simp [h] at h2 ⊢
    simp [h2]

/-- Legacy persisted settings used by the C10 witness: titles only, no
keys, no seen list. -/
def legacySettings : persistedSettings :=
  { LastAnnounceTitle := "T1", LastActivityKey := " ", LastActivityTitle := "T2" }

/-- Witness for C10: legacy data with only titles is backfilled and the
seen set re-seeded. -/
theorem C10_attach_backfill_witness :
    (trimSpace legacySettings.LastAnnounceKey = "" ∧
     trimSpace legacySettings.LastActivityKey = "" ∧
     legacySettings.ActivitySeenKeys = []) ∧
    ((Attach (some legacySettings) NewMonitor).lastKey = "T1" ∧
     (Attach (some legacySettings) NewMonitor).actSeenKeys = ["T2"]) := by
  have h := C10_attach_backfill NewMonitor legacySettings
  have h1 := h.1 (by decide)
  have h4 := h.2.2.2.1 (by decide) (by rw [h.2.1 (by decide)]; decide)
  refine ⟨⟨by decide, by decide, by decide⟩, ⟨by rw [h1]; decide, ?_⟩⟩
  rw [h4, h.2.1 (by decide)]
  decide


/-- C2: for a single-item source with a non-empty stored key, key
equality leaves the source state untouched and pushes nothing; key
inequality updates and persists key/title(/link), opens the link
exactly when the trimmed link is non-empty, and pushes exactly when
the trimmed channel key is non-empty. -/
theorem C2_single_item_change_detection (ck : String) (st : Monitor) (item : latestItem)
    (pe : Option String) :
    (trimSpace st.lastKey ≠ "" → item.Key = st.lastKey →
      (announceStep ck st item pe).1 = st ∧ hasPush (announceStep ck st item pe).2 = false) ∧
    (trimSpace st.lastKey ≠ "" → item.Key ≠ st.lastKey →
      (announceStep ck st item pe).1.lastKey = item.Key ∧
      (announceStep ck st item pe).1.lastTitle = item.Title ∧
      Effect.persist ∈ (announceStep ck st item pe).2 ∧
      (hasOpen (announceStep ck st item pe).2 = true ↔ trimSpace item.Link ≠ "") ∧
      (hasPush (announceStep ck st item pe).2 = true ↔ trimSpace ck ≠ "")) ∧
    (trimSpace st.lastForumKey ≠ "" → item.Key = st.lastForumKey →
      (forumStep ck st item pe).1 = st ∧ hasPush (forumStep ck st item pe).2 = false) ∧
    (trimSpace st.lastForumKey ≠ "" → item.Key ≠ st.lastForumKey →
      (forumStep ck st item pe).1.lastForumKey = item.Key ∧
      (forumStep ck st item pe).1.lastForumTitle = item.Title ∧
      (forumStep ck st item pe).1.lastForumLink = item.Link ∧
      Effect.persist ∈ (forumStep ck st item pe).2 ∧
      (hasOpen (forumStep ck st item pe).2 = true ↔ trimSpace item.Link ≠ "") ∧
      (hasPush (forumStep ck st item pe).2 = true ↔ trimSpace ck ≠ "")) := by
  refine ⟨fun h1 h2 => ?_, fun h1 h2 => ?_, fun h1 h2 => ?_, fun h1 h2 => ?_⟩
  · simp [announceStep, h1, h2, hasPush, Effect.isPush]
  · by_cases hL : trimSpace item.Link = "" <;> by_cases hC : trimSpace ck = "" <;> cases pe <;>
      simp [announceStep, openLinkEffects, pushEffects, h1, h2, hL, hC,
            hasOpen, hasPush, Effect.isOpen, Effect.isPush]
  · simp [forumStep, h1, h2, hasPush, Effect.isPush]
  · by_cases hL : trimSpace item.Link = "" <;> by_cases hC : trimSpace ck = "" <;> cases pe <;>
      simp [forumStep, openLinkEffects, pushEffects, h1, h2, hL, hC,
            hasOpen, hasPush, Effect.isOpen, Effect.isPush]

/-- Witness for C2: an unchanged announcement key is a no-op; a changed
forum key updates, opens and pushes. -/
theorem C2_single_item_change_detection_witness :
    (trimSpace "k0" ≠ "" ∧ ("k0" : String) = "k0" ∧ ("k1" : String) ≠ "k0") ∧
    ((announceStep "ck" { NewMonitor with lastKey := "k0" } ⟨"k0", "t", "l"⟩ none).1 =
       { NewMonitor with lastKey := "k0" } ∧
     hasPush (announceStep "ck" { NewMonitor with lastKey := "k0" } ⟨"k0", "t", "l"⟩ none).2 =
       false) ∧
    ((forumStep "ck" { NewMonitor with lastForumKey := "k0" } ⟨"k1", "t", "l"⟩ none).1.lastForumKey
       = "k1" ∧
     (hasOpen (forumStep "ck" { NewMonitor with lastForumKey := "k0" } ⟨"k1", "t", "l"⟩ none).2 =
        true ↔ trimSpace "l" ≠ "") ∧
     (hasPush (forumStep "ck" { NewMonitor with lastForumKey := "k0" } ⟨"k1", "t", "l"⟩ none).2 =
        true ↔ trimSpace "ck" ≠ "")) := by
  have ha := (C2_single_item_change_detection "ck" { NewMonitor with lastKey := "k0" }
    ⟨"k0", "t", "l"⟩ none).1 (by decide) (by decide)
  have hf := (C2_single_item_change_detection "ck" { NewMonitor with lastForumKey := "k0" }
    ⟨"k1", "t", "l"⟩ none).2.2.2 (by decide) (by decide)
  exact ⟨⟨by decide, rfl, by decide⟩, ⟨ha.1, ha.2⟩, ⟨hf.1, hf.2.2.2.2.1, hf.2.2.2.2.2⟩⟩

/-- C3: in multi-item activity mode with a non-empty stored key, the
new items are exactly the fetched items whose keys are absent from the
seen set, in fetch order; when non-empty, the last new item is the one
promoted to LastKey/Title/Link, its link is the one opened and it is
the item pushed, and the keys of all new items are appended to the
seen list (verbatim when the total stays within the 200-key cap). -/
theorem C3_multi_item_promotion (ck : String) (st : Monitor) (a0 : latestItem)
    (rest : List latestItem) (pe : Option String) (picked : latestItem)
    (h1 : trimSpace st.lastActKey ≠ "")
    (hp : (activityNewItems st.actSeenKeys (a0 :: rest)).getLast? = some picked) :
    activityNewItems st.actSeenKeys (a0 :: rest) =
      (a0 :: rest).filter (fun it => !((seenSetOf st.actSeenKeys).contains it.Key)) ∧
    (activityStep ck st (a0 :: rest) pe).1.lastActKey = picked.Key ∧
    (activityStep ck st (a0 :: rest) pe).1.lastActTitle = picked.Title ∧
    (activityStep ck st (a0 :: rest) pe).1.lastActLink = picked.Link ∧
    (activityStep ck st (a0 :: rest) pe).1.actSeenKeys =
      (let s := st.actSeenKeys ++ (activityNewItems st.actSeenKeys (a0 :: rest)).map latestItem.Key
       if s.length > 200 then s.drop (s.length - 200) else s) ∧
    ((st.actSeenKeys ++ (activityNewItems st.actSeenKeys (a0 :: rest)).map latestItem.Key).length
        ≤ 200 →
      (activityStep ck st (a0 :: rest) pe).1.actSeenKeys =
        st.actSeenKeys ++ (activityNewItems st.actSeenKeys (a0 :: rest)).map latestItem.Key) ∧
    Effect.persist ∈ (activityStep ck st (a0 :: rest) pe).2 ∧
    (trimSpace picked.Link ≠ "" →
      Effect.openLink picked.Link ∈ (activityStep ck st (a0 :: rest) pe).2) ∧
    (trimSpace ck ≠ "" →
      Effect.push ck "天龙有新活动了" picked.Title picked.Link ∈
        (activityStep ck st (a0 :: rest) pe).2) := by
  have hstep : activityStep ck st (a0 :: rest) pe =
      (let s := st.actSeenKeys ++ (activityNewItems st.actSeenKeys (a0 :: rest)).map latestItem.Key
       let seen := if s.length > 200 then s.drop (s.length - 200) else s
       ({ st with lastActKey := picked.Key, lastActTitle := picked.Title,
                  lastActLink := picked.Link, actSeenKeys := seen },
        [Effect.logInfo ("检测到新活动: " ++ picked.Title), Effect.persist]
        ++ openLinkEffects picked.Link "已打开活动链接: " "未解析到活动链接"
        ++ pushEffects ck "天龙有新活动了" picked.Title picked.Link pe)) := by
    simp only [activityStep]
    rw [if_neg h1, hp]
  refine ⟨rfl, ?_, ?_, ?_, ?_, ?_, ?_, ?_, ?_⟩
  · rw [hstep]
  · rw [hstep]
  · rw [hstep]
  · rw [hstep]
  · intro hle
    rw [hstep]
    show (if (st.actSeenKeys ++ (activityNewItems st.actSeenKeys (a0 :: rest)).map
              latestItem.Key).length > 200 then _ else _) = _
    rw [if_neg (by omega)]
  · simp [hstep]
  · intro hl
    simp [hstep, openLinkEffects, hl]
  · intro hc
    cases pe <;> simp [hstep, pushEffects, hc]

/-- Witness for C3: with seen keys K1, K2 and fetched keys K1..K4 (so
K3 and K4 are new, in fetch order), K4 is promoted and both K3 and K4
are appended to the seen list. -/
theorem C3_multi_item_promotion_witness :
    (trimSpace "K1" ≠ "" ∧
     (activityNewItems ["K1", "K2"]
        [⟨"K1", "t1", "l1"⟩, ⟨"K2", "t2", "l2"⟩, ⟨"K3", "t3", "l3"⟩, ⟨"K4", "t4", "l4"⟩]).getLast?
       = some ⟨"K4", "t4", "l4"⟩) ∧
    ((activityStep "ck" { NewMonitor with lastActKey := "K1", actSeenKeys := ["K1", "K2"] }
        [⟨"K1", "t1", "l1"⟩, ⟨"K2", "t2", "l2"⟩, ⟨"K3", "t3", "l3"⟩, ⟨"K4", "t4", "l4"⟩]
        none).1.lastActKey = "K4" ∧
     (activityStep "ck" { NewMonitor with lastActKey := "K1", actSeenKeys := ["K1", "K2"] }
        [⟨"K1", "t1", "l1"⟩, ⟨"K2", "t2", "l2"⟩, ⟨"K3", "t3", "l3"⟩, ⟨"K4", "t4", "l4"⟩]
        none).1.actSeenKeys = ["K1", "K2", "K3", "K4"]) := by
  have h := C3_multi_item_promotion "ck"
    { NewMonitor with lastActKey := "K1", actSeenKeys := ["K1", "K2"] }
    ⟨"K1", "t1", "l1"⟩ [⟨"K2", "t2", "l2"⟩, ⟨"K3", "t3", "l3"⟩, ⟨"K4", "t4", "l4"⟩]
    none ⟨"K4", "t4", "l4"⟩ (by decide) (by decide)
  refine ⟨⟨by decide, by decide⟩, h.2.1, ?_⟩
  rw [h.2.2.2.2.2.1 (by decide)]
  decide

set_option maxRecDepth 20000 in
/-- Counterexample to C4 as stated: the Attach-time load copies the
persisted activity seen-key list unchanged, so loading a 201-entry
list leaves 201 keys in the seen set — the 200-key cap is not enforced
there (nor on baseline adoption, which stores one key per fetched
item). -/
theorem C4_seen_cap_counterexample :
    200 <
      ((Attach (some { ActivitySeenKeys := List.replicate 201 "k" }) NewMonitor).actSeenKeys).length := by
  decide

/-- C4 (amended): the 200-key FIFO cap is enforced by the new-item
append path — after appending, the seen list is a suffix of the old
list plus the new keys, of length at most 200 — while baseline
adoption stores exactly one key per fetched item and the Attach-time
load keeps the persisted list unchanged (or a singleton), so the cap
holds after those operations only when the fetched or persisted list
is itself within 200 entries. -/
theorem C4_seen_cap_amended (ck : String) (st : Monitor) (all : List latestItem)
    (pe : Option String) (s : persistedSettings) (stA : Monitor) :
    (trimSpace st.lastActKey ≠ "" →
      (activityStep ck st all pe).1.actSeenKeys.length ≤ max st.actSeenKeys.length 200 ∧
      (activityNewItems st.actSeenKeys all ≠ [] →
        (activityStep ck st all pe).1.actSeenKeys.length ≤ 200 ∧
        (activityStep ck st all pe).1.actSeenKeys <:+
          (st.actSeenKeys ++ (activityNewItems st.actSeenKeys all).map latestItem.Key))) ∧
    (trimSpace st.lastActKey = "" → all ≠ [] →
      (activityStep ck st all pe).1.actSeenKeys = all.map latestItem.Key) ∧
    ((Attach (some s) stA).actSeenKeys.length ≤ max s.ActivitySeenKeys.length 1) := by
  refine ⟨fun h1 => ?_, fun h0 hne => ?_, ?_⟩
  · cases all with
    | nil =>
      refine ⟨?_, fun hne => absurd rfl hne⟩
      simp only [activityStep]
      exact le_max_left _ _
    | cons a0 rest =>
      rcases hg : (activityNewItems st.actSeenKeys (a0 :: rest)).getLast? with _ | picked
      · have hnew : activityNewItems st.actSeenKeys (a0 :: rest) = [] :=
          List.getLast?_eq_none_iff.mp hg
        have hstep : activityStep ck st (a0 :: rest) pe =
            (st, [Effect.logInfo ("活动未发现新增: " ++ a0.Title)]) := by
          simp only [activityStep]
          rw [if_neg h1, hg]
        rw [hstep]
        exact ⟨le_max_left _ _, fun hne => absurd hnew hne⟩
      · have hstep : (activityStep ck st (a0 :: rest) pe).1.actSeenKeys =
            (let sl := st.actSeenKeys ++
                (activityNewItems st.actSeenKeys (a0 :: rest)).map latestItem.Key
             if sl.length > 200 then sl.drop (sl.length - 200) else sl) := by
          simp only [activityStep]
          rw [if_neg h1, hg]
        rw [hstep]
        by_cases hlen : (st.actSeenKeys ++
            (activityNewItems st.actSeenKeys (a0 :: rest)).map latestItem.Key).length > 200
      
        · rw [if_pos hlen]
          rw [List.length_drop]
          refine ⟨by omega, fun _ => ⟨by omega, List.drop_suffix _ _⟩⟩
        · rw [if_neg hlen]
          refine ⟨by simp only [List.length_append] at hlen ⊢; omega,
                  fun _ => ⟨by omega, List.suffix_refl _⟩⟩
  · cases all with
    | nil => exact absurd rfl hne
    | cons a0 rest =>
      simp only [activityStep]
      rw [if_pos h0]
  · simp only [Attach]
    split <;> split <;>
      first
        | exact le_max_left _ _
        | (simp only [List.length_singleton]; exact le_max_right _ _)

theorem announceStep_preserves_other (ck : String) (st : Monitor) (item : latestItem)
    (pe : Option String) :
    (announceStep ck st item pe).1.lastActKey = st.lastActKey ∧
    (announceStep ck st item pe).1.lastForumKey = st.lastForumKey := by
  constructor <;>
    (simp only [announceStep]
     split
     · rfl
     · split <;> rfl)

theorem activityStep_preserves_ann (ck : String) (st : Monitor) (all : List latestItem)
    (pe : Option String) :
    (activityStep ck st all pe).1.lastKey = st.lastKey ∧
    (activityStep ck st all pe).1.lastTitle = st.lastTitle := by
  constructor <;>
    (cases all with
     | nil => rfl
     | cons a0 rest =>
       simp only [activityStep]
       split
       · rfl
       · split <;> rfl)

theorem forumStep_preserves_ann (ck : String) (st : Monitor) (item : latestItem)
    (pe : Option String) :
    (forumStep ck st item pe).1.lastKey = st.lastKey ∧
    (forumStep ck st item pe).1.lastTitle = st.lastTitle := by
  constructor <;>
    (simp only [forumStep]
     split
     · rfl
     · split <;> rfl)

theorem actPhase_preserves_ann (ck : String) (st : Monitor) (lres : Except String latestItem)
    (ares : Except String (List latestItem)) (pe : Option String) :
    (actPhase ck st lres ares pe).1.lastKey = st.lastKey ∧
    (actPhase ck st lres ares pe).1.lastTitle = st.lastTitle := by
  cases lres with
  | error e => exact ⟨rfl, rfl⟩
  | ok item =>
    simp only [actPhase]
    split
    · exact ⟨rfl, rfl⟩
    · cases ares with
      | error e => exact ⟨rfl, rfl⟩
      | ok all => exact activityStep_preserves_ann ck st all pe

theorem forumPhase_preserves_ann (ck : String) (st : Monitor) (res : Except String latestItem)
    (pe : Option String) :
    (forumPhase ck st res pe).1.lastKey = st.lastKey ∧
    (forumPhase ck st res pe).1.lastTitle = st.lastTitle := by
  cases res with
  | error e => exact ⟨rfl, rfl⟩
  | ok item =>
    simp only [forumPhase]
    split
    · exact ⟨rfl, rfl⟩
    · exact forumStep_preserves_ann ck st item pe

theorem annPhase_preserves_rest (ck : String) (st : Monitor) (res : Except String latestItem)
    (pe : Option String) :
    (annPhase ck st res pe).1.lastActKey = st.lastActKey ∧
    (annPhase ck st res pe).1.lastActTitle = st.lastActTitle ∧
    (annPhase ck st res pe).1.lastActLink = st.lastActLink ∧
    (annPhase ck st res pe).1.actSeenKeys = st.actSeenKeys ∧
    (annPhase ck st res pe).1.lastForumKey = st.lastForumKey ∧
    (annPhase ck st res pe).1.lastForumTitle = st.lastForumTitle ∧
    (annPhase ck st res pe).1.lastForumLink = st.lastForumLink := by
  refine ⟨?_, ?_, ?_, ?_, ?_, ?_, ?_⟩ <;>
    (cases res with
     | error e => rfl
     | ok item =>
       simp only [annPhase, announceStep]
       split
       · rfl
       · split
         · rfl
         · split <;> rfl)

theorem actPhase_preserves_forum (ck : String) (st : Monitor)
    (lres : Except String latestItem) (ares : Except String (List latestItem))
    (pe : Option String) :
    (actPhase ck st lres ares pe).1.lastForumKey = st.lastForumKey ∧
    (actPhase ck st lres ares pe).1.lastForumTitle = st.lastForumTitle ∧
    (actPhase ck st lres ares pe).1.lastForumLink = st.lastForumLink := by
  refine ⟨?_, ?_, ?_⟩ <;>
    (cases lres with
     | error e => rfl
     | ok item =>
       simp only [actPhase]
       split
       · rfl
       · cases ares with
         | error e2 => rfl
         | ok all =>
           cases all with
           | nil => rfl
           | cons a0 rest =>
             simp only [activityStep]
             split
             · rfl
             · split <;> rfl)

theorem forumPhase_preserves_act (ck : String) (st : Monitor) (res : Except String latestItem)
    (pe : Option String) :
    (forumPhase ck st res pe).1.lastActKey = st.lastActKey ∧
    (forumPhase ck st res pe).1.lastActTitle = st.lastActTitle ∧
    (forumPhase ck st res pe).1.lastActLink = st.lastActLink ∧
    (forumPhase ck st res pe).1.actSeenKeys = st.actSeenKeys := by
  refine ⟨?_, ?_, ?_, ?_⟩ <;>
    (cases res with
     | error e => rfl
     | ok item =>
       simp only [forumPhase, forumStep]
       split
       · rfl
       · split
         · rfl
         · split <;> rfl)

/-- Counterexample to C6 as stated: a non-2xx announcement response is
not reported as a fetch error.  At the concrete input of a 404
response whose error page contains no announcement-list markup, the
announcement checker — which never inspects the status code — parses
the body and returns the empty "not found" item with no error, which
`checkOnce` then handles on the WARN path, counting the fetch as
successful; the very same response is a fetch error for the forum and
activity checkers. -/
theorem C6_fetch_error_counterexample :
    announcementFetchLatest (.ok (404, "404 Not Found", "<html>error</html>"))
      (fun _ => .ok none) = .ok ⟨"", "", ""⟩ ∧
    forumFetchLatest (.ok (404, "404 Not Found", "<html>error</html>"))
      (fun _ => .ok none) =
      .error ("HTTP " ++ "404 Not Found" ++ ": " ++ trimSpace "<html>error</html>") ∧
    activityFetchLatest (.ok (404, "404 Not Found", "<html>error</html>"))
      (fun _ => .error "invalid JSON") =
      .error ("HTTP " ++ "404 Not Found" ++ ": " ++ trimSpace "<html>error</html>") ∧
    (annPhase "" NewMonitor (Except.ok ⟨"", "", ""⟩) none).2.1 =
      [Effect.logWarn "未找到最新公告标题"] ∧
    (annPhase "" NewMonitor (Except.ok ⟨"", "", ""⟩) none).2.2 = true ∧
    (annPhase "" NewMonitor (Except.ok ⟨"", "", ""⟩) none).1 = NewMonitor := by
  exact ⟨rfl, rfl, rfl, rfl, rfl, rfl⟩

/-- C6 (amended): transport-level failures are fetch errors for every
source, and for the activity and forum sources a non-2xx HTTP response
is also a fetch error built from the status line — distinct from the
"not found" result (empty key) — but the announcement checker never
inspects the status code: its result is independent of the status, and
a body in which the selector finds nothing yields the empty "not
found" item even on an error response.  Whenever a fetch error does
occur, it is logged at ERROR for that source, that source's state is
left unchanged, the remaining sources are still processed in the same
cycle, and the error counts towards the all-failed flag while a
"not found" result does not (it warns instead). -/
theorem C6_fetch_error_amended (st : Monitor) (inp : CycleInput) (now : Nat) :
    (∀ (e : String) (parse : String → Except String (Option (String × String))),
      announcementFetchLatest (.error e) parse = .error e) ∧
    (∀ (code code2 : Nat) (status status2 body : String)
        (parse : String → Except String (Option (String × String))),
      announcementFetchLatest (.ok (code, status, body)) parse =
        announcementFetchLatest (.ok (code2, status2, body)) parse) ∧
    (∀ (code : Nat) (status body : String)
        (parse : String → Except String (Option (String × String))),
      parse body = .ok none →
      announcementFetchLatest (.ok (code, status, body)) parse = .ok ⟨"", "", ""⟩) ∧
    (∀ (e : String) (parse : String → Except String (Option (String × String))),
      forumFetchLatest (.error e) parse = .error e) ∧
    (∀ (code : Nat) (status body : String)
        (parse : String → Except String (Option (String × String))),
      code < 200 ∨ 300 ≤ code →
      forumFetchLatest (.ok (code, status, body)) parse =
        .error ("HTTP " ++ status ++ ": " ++ trimSpace body)) ∧
    (∀ (e : String) (dec : String → Except String (List (String × String))),
      activityFetchLatest (.error e) dec = .error e) ∧
    (∀ (code : Nat) (status body : String)
        (dec : String → Except String (List (String × String))),
      code < 200 ∨ 300 ≤ code →
      activityFetchLatest (.ok (code, status, body)) dec =
        .error ("HTTP " ++ status ++ ": " ++ trimSpace body)) ∧
    (∀ (code : Nat) (status body : String)
        (dec : String → Except String (List (String × String))),
      code < 200 ∨ 300 ≤ code →
      activityFetchAll (.ok (code, status, body)) dec =
        .error ("HTTP " ++ status ++ ": " ++ trimSpace body)) ∧
    (∀ e, inp.annRes = .error e →
      (checkOnce st inp now).1.lastKey = st.lastKey ∧
      (checkOnce st inp now).1.lastTitle = st.lastTitle ∧
      Effect.logError ("公告检查失败: " ++ e) ∈ (checkOnce st inp now).2.1 ∧
      (checkOnce st inp now).1 =
        (forumPhase st.channelKey
          (actPhase st.channelKey { st with lastChecked := now }
            inp.actLatestRes inp.actAllRes inp.actPushErr).1
          inp.forumRes inp.forumPushErr).1 ∧
      (annPhase st.channelKey { st with lastChecked := now } (Except.error e)
        inp.annPushErr).2.2 = false ∧
      (∀ item : latestItem,
        (annPhase st.channelKey { st with lastChecked := now } (Except.ok item)
          inp.annPushErr).2.2 = true)) ∧
    (∀ e, inp.actLatestRes = .error e →
      (checkOnce st inp now).1.lastActKey = st.lastActKey ∧
      (checkOnce st inp now).1.lastActTitle = st.lastActTitle ∧
      (checkOnce st inp now).1.lastActLink = st.lastActLink ∧
      (checkOnce st inp now).1.actSeenKeys = st.actSeenKeys ∧
      Effect.logError ("活动检查失败: " ++ e) ∈ (checkOnce st inp now).2.1 ∧
      (checkOnce st inp now).1 =
        (forumPhase st.channelKey
          (annPhase st.channelKey { st with lastChecked := now } inp.annRes inp.annPushErr).1
          inp.forumRes inp.forumPushErr).1) ∧
    (∀ e, inp.forumRes = .error e →
      (checkOnce st inp now).1.lastForumKey = st.lastForumKey ∧
      (checkOnce st inp now).1.lastForumTitle = st.lastForumTitle ∧
      (checkOnce st inp now).1.lastForumLink = st.lastForumLink ∧
      Effect.logError ("论坛检查失败: " ++ e) ∈ (checkOnce st inp now).2.1 ∧
      (checkOnce st inp now).1 =
        (actPhase st.channelKey
          (annPhase st.channelKey { st with lastChecked := now } inp.annRes inp.annPushErr).1
          inp.actLatestRes inp.actAllRes inp.actPushErr).1) := by
  refine ⟨fun e parse => rfl, fun code code2 status status2 body parse => rfl,
    fun code status body parse hp => ?_,
    fun e parse => rfl, fun code status body parse hc => ?_,
    fun e dec => rfl, fun code status body dec hc => ?_, fun code status body dec hc => ?_,
    fun e h => ?_, fun e h => ?_, fun e h => ?_⟩
  · simp only [announcementFetchLatest, hp]
  · simp only [forumFetchLatest]
    rw [if_pos hc]
  · simp only [activityFetchLatest]
    rw [if_pos hc]
  · simp only [activityFetchAll]
    rw [if_pos hc]
  · have hfields : (checkOnce st inp now).1 =
        (forumPhase st.channelKey
          (actPhase st.channelKey { st with lastChecked := now }
            inp.actLatestRes inp.actAllRes inp.actPushErr).1
          inp.forumRes inp.forumPushErr).1 := by
      simp only [checkOnce, h, annPhase]
    have heffs : (checkOnce st inp now).2.1 =
        [Effect.logError ("公告检查失败: " ++ e)] ++
          ((actPhase st.channelKey { st with lastChecked := now }
              inp.actLatestRes inp.actAllRes inp.actPushErr).2.1 ++
           (forumPhase st.channelKey
              (actPhase st.channelKey { st with lastChecked := now }
                inp.actLatestRes inp.actAllRes inp.actPushErr).1
              inp.forumRes inp.forumPushErr).2.1) := by
      simp only [checkOnce, h, annPhase, List.append_assoc]
    have hact := actPhase_preserves_ann st.channelKey { st with lastChecked := now }
      inp.actLatestRes inp.actAllRes inp.actPushErr
    have hforum := forumPhase_preserves_ann st.channelKey
      (actPhase st.channelKey { st with lastChecked := now }
        inp.actLatestRes inp.actAllRes inp.actPushErr).1
      inp.forumRes inp.forumPushErr
    refine ⟨?_, ?_, ?_, hfields, rfl, ?_⟩
    · rw [hfields]
      exact hforum.1.trans hact.1
    · rw [hfields]
      exact hforum.2.trans hact.2
    · rw [heffs]
      simp
    · intro item
      simp only [annPhase]
      split <;> rfl
  · have hfields : (checkOnce st inp now).1 =
        (forumPhase st.channelKey
          (annPhase st.channelKey { st with lastChecked := now } inp.annRes inp.annPushErr).1
          inp.forumRes inp.forumPushErr).1 := by
      simp only [checkOnce, h, actPhase]
    have heffs : (checkOnce st inp now).2.1 =
        (annPhase st.channelKey { st with lastChecked := now } inp.annRes inp.annPushErr).2.1 ++
          ([Effect.logError ("活动检查失败: " ++ e)] ++
           (forumPhase st.channelKey
              (annPhase st.channelKey { st with lastChecked := now } inp.annRes
                inp.annPushErr).1
              inp.forumRes inp.forumPushErr).2.1) := by
      simp only [checkOnce, h, actPhase, List.append_assoc]
    have hann := annPhase_preserves_rest st.channelKey { st with lastChecked := now }
      inp.annRes inp.annPushErr
    have hforum := forumPhase_preserves_act st.channelKey
      (annPhase st.channelKey { st with lastChecked := now } inp.annRes inp.annPushErr).1
      inp.forumRes inp.forumPushErr
    refine ⟨?_, ?_, ?_, ?_, ?_, hfields⟩
    · rw [hfields]
      exact hforum.1.trans hann.1
    · rw [hfields]
      exact hforum.2.1.trans hann.2.1
    · rw [hfields]
      exact hforum.2.2.1.trans hann.2.2.1
    · rw [hfields]
      exact hforum.2.2.2.trans hann.2.2.2.1
    · rw [heffs]
      simp
  · have hfields : (checkOnce st inp now).1 =
        (actPhase st.channelKey
          (annPhase st.channelKey { st with lastChecked := now } inp.annRes inp.annPushErr).1
          inp.actLatestRes inp.actAllRes inp.actPushErr).1 := by
      simp only [checkOnce, h, forumPhase]
    have heffs : (checkOnce st inp now).2.1 =
        (annPhase st.channelKey { st with lastChecked := now } inp.annRes inp.annPushErr).2.1 ++
          ((actPhase st.channelKey
              (annPhase st.channelKey { st with lastChecked := now } inp.annRes
                inp.annPushErr).1
              inp.actLatestRes inp.actAllRes inp.actPushErr).2.1 ++
           [Effect.logError ("论坛检查失败: " ++ e)]) := by
      simp only [checkOnce, h, forumPhase, List.append_assoc]
    have hann := annPhase_preserves_rest st.channelKey { st with lastChecked := now }
      inp.annRes inp.annPushErr
    have hact := actPhase_preserves_forum st.channelKey
      (annPhase st.channelKey { st with lastChecked := now } inp.annRes inp.annPushErr).1
      inp.actLatestRes inp.actAllRes inp.actPushErr
    refine ⟨?_, ?_, ?_, ?_, hfields⟩
    · rw [hfields]
      exact hact.1.trans hann.2.2.2.2.1
    · rw [hfields]
      exact hact.2.1.trans hann.2.2.2.2.2.1
    · rw [hfields]
      exact hact.2.2.trans hann.2.2.2.2.2.2
    · rw [heffs]
      simp

/-- Concrete cycle input for the C6 witness: the announcement fetch
fails, the other two sources succeed. -/
def cycleFailAnn : CycleInput :=
  { annRes := .error "boom", actLatestRes := .ok ⟨"k", "t", "l"⟩
  , actAllRes := .ok [⟨"k", "t", "l"⟩], forumRes := .ok ⟨"fk", "ft", "fl"⟩
  , annPushErr := none, actPushErr := none, forumPushErr := none }

/-- Witness for the amended C6: a concrete failing announcement fetch
is logged and isolated, and a concrete 500 response is a forum fetch
error. -/
theorem C6_fetch_error_amended_witness :
    ((500 : Nat) < 200 ∨ (300 : Nat) ≤ 500) ∧
    forumFetchLatest (.ok (500, "500 Internal Server Error", " oops ")) (fun _ => .ok none) =
      .error ("HTTP " ++ "500 Internal Server Error" ++ ": " ++ trimSpace " oops ") ∧
    cycleFailAnn.annRes = Except.error "boom" ∧
    (checkOnce NewMonitor cycleFailAnn 5).1.lastKey = NewMonitor.lastKey ∧
    Effect.logError ("公告检查失败: " ++ "boom") ∈ (checkOnce NewMonitor cycleFailAnn 5).2.1 ∧
    (checkOnce NewMonitor cycleFailAnn 5).1.lastForumKey = "fk" := by
  have h := C6_fetch_error_amended NewMonitor cycleFailAnn 5
  have hferr := h.2.2.2.2.1 500 "500 Internal Server Error" " oops " (fun _ => .ok none)
    (by norm_num)
  have ha := h.2.2.2.2.2.2.2.2.1 "boom" rfl
  exact ⟨by norm_num, hferr, rfl, ha.1, ha.2.2.1, by decide⟩

/-- C7: the dedup state written by a step does not depend on the push
delivery outcome — the promoted key/title(/link) and the appended
activity seen keys survive a failed push, the snapshot is persisted
before the push is attempted, and the failure is only logged; at the
delivery level, a non-2xx response is an error and a 2xx response is
not. -/
theorem C7_push_failure_keeps_state (ck : String) (st : Monitor) (item : latestItem)
    (all : List latestItem) (e : String) :
    ((announceStep ck st item (some e)).1 = (announceStep ck st item none).1) ∧
    ((forumStep ck st item (some e)).1 = (forumStep ck st item none).1) ∧
    ((activityStep ck st all (some e)).1 = (activityStep ck st all none).1) ∧
    (trimSpace st.lastKey ≠ "" → item.Key ≠ st.lastKey → trimSpace ck ≠ "" →
      (announceStep ck st item (some e)).1.lastKey = item.Key ∧
      Effect.persist ∈ (announceStep ck st item (some e)).2 ∧
      Effect.logError ("微信推送失败: " ++ e) ∈ (announceStep ck st item (some e)).2) ∧
    (∀ picked : latestItem, trimSpace st.lastActKey ≠ "" →
      (activityNewItems st.actSeenKeys all).getLast? = some picked → trimSpace ck ≠ "" →
      Effect.persist ∈ (activityStep ck st all (some e)).2 ∧
      Effect.logError ("微信推送失败: " ++ e) ∈ (activityStep ck st all (some e)).2) ∧
    (∀ head title link code status body u,
      buildXizhiPushURL (trimSpace ck)
          (if trimSpace head = "" then "消息通知" else trimSpace head)
          (buildRichPushContent title link) = .ok u →
      trimSpace ck ≠ "" →
      ((code < 200 ∨ 300 ≤ code) →
        sendWechatPush ck head title link (.ok (code, status, body)) =
          .error ("HTTP " ++ status ++ ": " ++ trimSpace body)) ∧
      (200 ≤ code → code < 300 →
        sendWechatPush ck head title link (.ok (code, status, body)) = .ok ())) := by
  refine ⟨?_, ?_, ?_, fun h1 h2 h3 => ?_, fun picked h1 hp h3 => ?_,
    fun head title link code status body u hb hck => ?_⟩
  · simp only [announceStep]
    split
    · rfl
    · split <;> rfl
  · simp only [forumStep]
    split
    · rfl
    · split <;> rfl
  · cases all with
    | nil => rfl
    | cons a0 rest =>
      simp only [activityStep]
      split
      · rfl
      · split <;> rfl
  · by_cases hL : trimSpace item.Link = "" <;>
      simp [announceStep, h1, h2, h3, hL, openLinkEffects, pushEffects]
  · cases all with
    | nil => simp [activityNewItems, seenSetOf] at hp
    | cons a0 rest =>
      have hstep : activityStep ck st (a0 :: rest) (some e) =
          (let sl := st.actSeenKeys ++
              (activityNewItems st.actSeenKeys (a0 :: rest)).map latestItem.Key
           let seen := if sl.length > 200 then sl.drop (sl.length - 200) else sl
           ({ st with lastActKey := picked.Key, lastActTitle := picked.Title,
                      lastActLink := picked.Link, actSeenKeys := seen },
            [Effect.logInfo ("检测到新活动: " ++ picked.Title), Effect.persist]
            ++ openLinkEffects picked.Link "已打开活动链接: " "未解析到活动链接"
            ++ pushEffects ck "天龙有新活动了" picked.Title picked.Link (some e))) := by
        simp only [activityStep]
        rw [if_neg h1, hp]
      by_cases hL : trimSpace picked.Link = "" <;>
        simp [hstep, h3, hL, openLinkEffects, pushEffects]
  · have hck' : ¬ (trimSpace ck = "") := hck
    constructor
    · intro hcode
      simp only [sendWechatPush]
      rw [if_neg hck', hb]
      exact if_pos hcode
    · intro hlo hhi
      simp only [sendWechatPush]
      rw [if_neg hck', hb]
      exact if_neg (by omega)

set_option maxRecDepth 100000 in
/-- Witness for C7: a changed announcement with a failing push keeps
the new key and still persists; a 404 delivery is an error, a 200
delivery is not. -/
theorem C7_push_failure_keeps_state_witness :
    (trimSpace "k0" ≠ "" ∧ ("k1" : String) ≠ "k0" ∧ trimSpace "XZ1" ≠ "" ∧
     buildXizhiPushURL (trimSpace "XZ1")
       (if trimSpace "天龙发公告了" = "" then "消息通知" else trimSpace "天龙发公告了")
       (buildRichPushContent "t" "l") =
       .ok "https://xizhi.qqoq.net/XZ1.send?content=t%0A%E6%9D%A5%E6%BA%90%EF%BC%9A%E5%A4%A9%E9%BE%99%E6%80%80%E6%97%A7%E5%85%AC%E5%91%8A%E6%A3%80%E6%B5%8B%0A%E9%93%BE%E6%8E%A5%EF%BC%9Al&title=%E5%A4%A9%E9%BE%99%E5%8F%91%E5%85%AC%E5%91%8A%E4%BA%86") ∧
    ((announceStep "XZ1" { NewMonitor with lastKey := "k0" } ⟨"k1", "t", "l"⟩
        (some "HTTP 404 Not Found: x")).1.lastKey = "k1" ∧
     Effect.persist ∈ (announceStep "XZ1" { NewMonitor with lastKey := "k0" } ⟨"k1", "t", "l"⟩
        (some "HTTP 404 Not Found: x")).2) ∧
    sendWechatPush "XZ1" "天龙发公告了" "t" "l" (.ok (404, "404 Not Found", " x ")) =
      .error ("HTTP " ++ "404 Not Found" ++ ": " ++ trimSpace " x ") ∧
    sendWechatPush "XZ1" "天龙发公告了" "t" "l" (.ok (200, "200 OK", "ok")) = .ok () := by
  have h := C7_push_failure_keeps_state "XZ1" { NewMonitor with lastKey := "k0" }
    ⟨"k1", "t", "l"⟩ [] "HTTP 404 Not Found: x"
  have h4 := h.2.2.2.1 (by decide) (by decide) (by decide)
  have hbuild : buildXizhiPushURL (trimSpace "XZ1")
      (if trimSpace "天龙发公告了" = "" then "消息通知" else trimSpace "天龙发公告了")
      (buildRichPushContent "t" "l") =
      .ok "https://xizhi.qqoq.net/XZ1.send?content=t%0A%E6%9D%A5%E6%BA%90%EF%BC%9A%E5%A4%A9%E9%BE%99%E6%80%80%E6%97%A7%E5%85%AC%E5%91%8A%E6%A3%80%E6%B5%8B%0A%E9%93%BE%E6%8E%A5%EF%BC%9Al&title=%E5%A4%A9%E9%BE%99%E5%8F%91%E5%85%AC%E5%91%8A%E4%BA%86" := by
    rfl
  have h6 := (C7_push_failure_keeps_state "XZ1" NewMonitor ⟨"k1", "t", "l"⟩ [] "unused").2.2.2.2.2
    "天龙发公告了" "t" "l" 404 "404 Not Found" " x " _ hbuild (by decide)
  have h7 := (C7_push_failure_keeps_state "XZ1" NewMonitor ⟨"k1", "t", "l"⟩ [] "unused").2.2.2.2.2
    "天龙发公告了" "t" "l" 200 "200 OK" "ok" _ hbuild (by decide)
  exact ⟨⟨by decide, by decide, by decide, hbuild⟩, ⟨h4.1, h4.2.1⟩,
    h6.1 (by norm_num), h7.2 (by norm_num) (by norm_num)⟩

theorem valuesGet_set_same (q : List (String × String)) (k v : String) :
    valuesGet (valuesSet q k v) k = some v := by
  unfold valuesGet valuesSet
  rw [List.find?_append]
  have h : (q.filter (fun p => p.1 != k)).find? (fun p => p.1 == k) = none := by
    rw [List.find?_eq_none]
    intro x hx
    have hxf := List.of_mem_filter hx
    simp at hxf ⊢
    exact hxf
  rw [h]
  simp

theorem valuesGet_set_other (q : List (String × String)) (k v k2 v2 : String) (hne : k ≠ k2) :
    valuesGet (valuesSet (valuesSet q k v) k2 v2) k = some v := by
  unfold valuesGet valuesSet
  have hkv : ([(k, v)] : List (String × String)).filter (fun p => p.1 != k2) = [(k, v)] := by
    simp [hne]
  rw [List.filter_append, hkv, List.find?_append, List.find?_append]
  have h1 : ((q.filter (fun p => p.1 != k)).filter (fun p => p.1 != k2)).find?
      (fun p => p.1 == k) = none := by
    rw [List.find?_eq_none]
    intro x hx
    have hxf := List.of_mem_filter (List.mem_of_mem_filter hx)
    simp at hxf ⊢
    exact hxf
  rw [h1]
  simp

/-- The query values both branches of `buildXizhiPushURL` produce: the
existing values with `title` set to the (defaulted, trimmed) title and
`content` set to the trimmed content. -/
def xizhiQueryValues (q0 : List (String × String)) (t c : String) : List (String × String) :=
  valuesSet (valuesSet q0 "title" (if trimSpace t = "" then "消息通知" else trimSpace t))
    "content" (trimSpace c)

/-- C8: push destination resolution.  An empty input is rejected.  An
input containing the scheme separator is parsed as a URL: a parse
failure or a missing scheme/host is rejected with an error, and
otherwise the URL is re-rendered with `title` and `content` set in its
query values.  Any other input is normalised to a bare key (last path
segment, `.send` suffix stripped): an empty key is rejected, and
otherwise the key is combined with the fixed default host into an
https URL with path `/<key>.send` and `title`/`content` query
parameters. -/
theorem C8_push_destination_resolution (input t c : String) :
    (trimSpace input = "" → buildXizhiPushURL input t c = .error "推送链接/Key 不能为空") ∧
    (∀ e, trimSpace input ≠ "" → goContains (trimSpace input) "://" = true →
      goURLParse (trimSpace input) = .error e →
      buildXizhiPushURL input t c = .error e) ∧
    (∀ u : GoURL, trimSpace input ≠ "" → goContains (trimSpace input) "://" = true →
      goURLParse (trimSpace input) = .ok u → (u.scheme = "" ∨ u.host = "") →
      buildXizhiPushURL input t c = .error "无效推送链接") ∧
    (∀ u : GoURL, trimSpace input ≠ "" → goContains (trimSpace input) "://" = true →
      goURLParse (trimSpace input) = .ok u → u.scheme ≠ "" → u.host ≠ "" →
      buildXizhiPushURL input t c =
        .ok (GoURL.render
          { u with rawQuery := valuesEncode (xizhiQueryValues (parseQuery u.rawQuery) t c) }) ∧
      valuesGet (xizhiQueryValues (parseQuery u.rawQuery) t c) "title"
        = some (if trimSpace t = "" then "消息通知" else trimSpace t) ∧
      valuesGet (xizhiQueryValues (parseQuery u.rawQuery) t c) "content"
        = some (trimSpace c)) ∧
    (trimSpace input ≠ "" → goContains (trimSpace input) "://" = false →
      xizhiNormalizeKey (trimSpace input) = "" →
      buildXizhiPushURL input t c = .error "无效推送 key") ∧
    (trimSpace input ≠ "" → goContains (trimSpace input) "://" = false →
      xizhiNormalizeKey (trimSpace input) ≠ "" →
      buildXizhiPushURL input t c =
        .ok (GoURL.render
          { scheme := "https", host := xizhiDefaultHost
          , path := "/" ++ xizhiNormalizeKey (trimSpace input) ++ ".send"
          , rawQuery := valuesEncode (xizhiQueryValues (parseQuery "") t c)
          , fragment := "" }) ∧
      valuesGet (xizhiQueryValues (parseQuery "") t c) "title"
        = some (if trimSpace t = "" then "消息通知" else trimSpace t) ∧
      valuesGet (xizhiQueryValues (parseQuery "") t c) "content"
        = some (trimSpace c)) := by
  refine ⟨fun h => ?_, fun e hne hcont hparse => ?_, fun u hne hcont hparse hsh => ?_,
    fun u hne hcont hparse hs hh => ?_, fun hne hcont hkey => ?_, fun hne hcont hkey => ?_⟩
  · simp only [buildXizhiPushURL]
    rw [if_pos h]
  · simp only [buildXizhiPushURL]
    rw [if_neg hne, if_pos hcont, hparse]
  · simp only [buildXizhiPushURL]
    rw [if_neg hne, if_pos hcont, hparse]
    exact if_pos hsh
  · refine ⟨?_, valuesGet_set_other _ "title" _ "content" _ (by decide),
      valuesGet_set_same _ "content" _⟩
    simp only [buildXizhiPushURL, xizhiQueryValues]
    rw [if_neg hne, if_pos hcont, hparse]
    exact if_neg (not_or.mpr ⟨hs, hh⟩)
  · simp only [buildXizhiPushURL]
    rw [if_neg hne, if_neg (by simp [hcont]), if_pos hkey]
  · refine ⟨?_, valuesGet_set_other _ "title" _ "content" _ (by decide),
      valuesGet_set_same _ "content" _⟩
    simp only [buildXizhiPushURL, xizhiQueryValues]
    rw [if_neg hne, if_neg (by simp [hcont]), if_neg hkey]

set_option maxRecDepth 400000 in
/-- Witness for C8: a pasted full URL keeps its query and gains
`title`/`content`; a URL without a host is rejected; a bare
key-with-suffix is normalised and combined with the default host. -/
theorem C8_push_destination_resolution_witness :
    (trimSpace "https://xizhi.qqoq.net/XZ9.send?x=1" ≠ "" ∧
     goContains (trimSpace "https://xizhi.qqoq.net/XZ9.send?x=1") "://" = true ∧
     goURLParse (trimSpace "https://xizhi.qqoq.net/XZ9.send?x=1") =
       .ok { scheme := "https", host := "xizhi.qqoq.net", path := "/XZ9.send"
           , rawQuery := "x=1", fragment := "" } ∧
     goURLParse (trimSpace "https:///path") =
       .ok { scheme := "https", host := "", path := "/path"
           , rawQuery := "", fragment := "" } ∧
     xizhiNormalizeKey (trimSpace " XZ123.send ") = "XZ123") ∧
    buildXizhiPushURL "https://xizhi.qqoq.net/XZ9.send?x=1" " " "hi" =
      .ok "https://xizhi.qqoq.net/XZ9.send?content=hi&title=%E6%B6%88%E6%81%AF%E9%80%9A%E7%9F%A5&x=1" ∧
    buildXizhiPushURL "https:///path" "T" "C" = .error "无效推送链接" ∧
    buildXizhiPushURL " XZ123.send " "T" "C" =
      .ok "https://xizhi.qqoq.net/XZ123.send?content=C&title=T" := by
  have h1 := (C8_push_destination_resolution "https://xizhi.qqoq.net/XZ9.send?x=1" " " "hi").2.2.2.1
    { scheme := "https", host := "xizhi.qqoq.net", path := "/XZ9.send"
    , rawQuery := "x=1", fragment := "" }
    (by decide) (by decide) (by rfl) (by decide) (by decide)
  have h2 := (C8_push_destination_resolution "https:///path" "T" "C").2.2.1
    { scheme := "https", host := "", path := "/path", rawQuery := "", fragment := "" }
    (by decide) (by decide) (by rfl) (Or.inr rfl)
  have h3 := (C8_push_destination_resolution " XZ123.send " "T" "C").2.2.2.2.2
    (by decide) (by decide) (by decide)
  refine ⟨⟨by decide, by decide, by rfl, by rfl, by decide⟩, ?_, h2, ?_⟩
  · rw [h1.1]
    rfl
  · rw [h3.1]
    rfl

/-- Witness for the amended C4: one new item appended to a one-key seen
list stays within the cap, and an empty persisted list loads within
the bound. -/
theorem C4_seen_cap_amended_witness :
    (trimSpace "K1" ≠ "" ∧
     activityNewItems ["K1"] [⟨"K2", "t", "l"⟩] ≠ []) ∧
    ((activityStep "ck" { NewMonitor with lastActKey := "K1", actSeenKeys := ["K1"] }
        [⟨"K2", "t", "l"⟩] none).1.actSeenKeys.length ≤ 200 ∧
     (activityStep "ck" { NewMonitor with lastActKey := "K1", actSeenKeys := ["K1"] }
        [⟨"K2", "t", "l"⟩] none).1.actSeenKeys <:+
       (["K1"] ++ (activityNewItems ["K1"] [⟨"K2", "t", "l"⟩]).map latestItem.Key)) ∧
    ((Attach (some {}) NewMonitor).actSeenKeys.length ≤
      max ({} : persistedSettings).ActivitySeenKeys.length 1) := by
  have h := C4_seen_cap_amended "ck" { NewMonitor with lastActKey := "K1", actSeenKeys := ["K1"] }
    [⟨"K2", "t", "l"⟩] none {} NewMonitor
  have ha := (h.1 (by decide)).2 (by decide)
  exact ⟨⟨by decide, by decide⟩, ⟨ha.1, ha.2⟩, h.2.2⟩
